import Mathlib

/-!
# Path guiding controller and PDF mixing (yocto_guiding.h) and the render loop (ytrace.cpp)

A shallow embedding of

* `adjust_pdf_for_guiding` (src/libs/yocto/yocto_guiding.h, lines 96-128),
* `guiding_field::update`, `iterations`, `should_train` (same file, lines 38-86),
* the render loop of `main` (src/apps/ytrace.cpp, lines 108-126).

`float` values are exact rationals.  Calls into OpenPGL and into the yocto
sampling header are either parameters of the embedded function or small
models introduced with the words "Modelled from the spec".
-/

namespace yocto

/-! ## Data model -/

/-- The yocto `vec3f`. -/
structure vec3f where
  x : ℚ
  y : ℚ
  z : ℚ
deriving DecidableEq, Repr

/-- The OpenPGL `pgl_vec3f`. -/
structure pgl_vec3f where
  x : ℚ
  y : ℚ
  z : ℚ
deriving DecidableEq, Repr

/-- The OpenPGL `pgl_point2f` (a pair of uniform numbers). -/
structure pgl_point2f where
  x : ℚ
  y : ℚ
deriving DecidableEq, Repr

/-- `enum class guiding { InUse, Tentative, Unused }` (yocto_guiding.h:88-92). -/
inductive guiding where
  | InUse
  | Tentative
  | Unused
deriving DecidableEq, Repr

/-- `constexpr float g_path_guiding_prob = 0.50f` (yocto_guiding.h:94). -/
def g_path_guiding_prob : ℚ := 1 / 2

/-- The two queries `adjust_pdf_for_guiding` can send to the template parameter
`T` (the `SamplePDF` and `PDF` members of the OpenPGL surface sampling
distribution, backed by `ISurfaceSamplingDistribution::samplePdf` and
`ISurfaceSamplingDistribution::pdf`). -/
structure SurfaceSamplingDistribution where
  /-- `float PDF(const pgl_vec3f& direction)`: density at a given direction. -/
  PDF : pgl_vec3f → ℚ
  /-- `float SamplePDF(const pgl_point2f& sample, pgl_vec3f& direction)`: the
  direction is an in/out reference; the call returns a density and the value
  left in `direction`. -/
  SamplePDF : pgl_point2f → pgl_vec3f → ℚ × pgl_vec3f

/-- One query sent to the guiding distribution. -/
inductive distribution_query where
  | SamplePDF (sample : pgl_point2f) (direction : pgl_vec3f)
  | PDF (direction : pgl_vec3f)
deriving DecidableEq, Repr

/-- A query together with the density the distribution returned for it. -/
structure distribution_call where
  query : distribution_query
  returned : ℚ
deriving DecidableEq, Repr

/-- Everything observable after one call of `adjust_pdf_for_guiding`: the
returned float, the random number state (passed by reference) and the queries
that were sent to the guiding distribution, in call order. -/
structure adjust_result (ρ : Type) where
  pdf : ℚ
  rng : ρ
  calls : List distribution_call

/-- The function `adjust_pdf_for_guiding` of yocto_guiding.h:96-128.  The random
number generator `rand1f(rng_state&)` of yocto_sampling.h is the parameter
`rand1f`: it returns the drawn number and the advanced state.  The two draws
in the braced initialiser are evaluated left to right. -/
def adjust_pdf_for_guiding {ρ : Type} (rand1f : ρ → ℚ × ρ) (pdf : ℚ)
    (incoming : vec3f) (guiding_distribution : SurfaceSamplingDistribution)
    (rng : ρ) (guiding_info : guiding) : adjust_result ρ :=
  let direction : pgl_vec3f := ⟨incoming.x, incoming.y, incoming.z⟩
  match guiding_info with
  | guiding.InUse =>
      let r0 := rand1f rng
      let r1 := rand1f r0.2
      let sample : pgl_point2f := ⟨r0.1, r1.1⟩
      let guided_sample_pdf := (guiding_distribution.SamplePDF sample direction).1
      let pdf1 := pdf * (1 - g_path_guiding_prob)
      let pdf2 := pdf1 + g_path_guiding_prob * guided_sample_pdf
      ⟨pdf2, r1.2, [⟨distribution_query.SamplePDF sample direction, guided_sample_pdf⟩]⟩
  | guiding.Tentative =>
      let guiding_pdf := guiding_distribution.PDF direction
      let pdf1 := pdf * (1 - g_path_guiding_prob)
      let pdf2 := pdf1 + g_path_guiding_prob * guiding_pdf
      ⟨pdf2, rng, [⟨distribution_query.PDF direction, guiding_pdf⟩]⟩
  | _ => ⟨pdf, rng, []⟩

/-! ### A concrete random number source and a concrete distribution -/

/-- Modelled from the spec: the random number state of yocto_sampling.h, which
is not among the sources ("a per-pixel splittable stream"): a 64-bit state
and a 64-bit increment. -/
structure rng_state where
  state : Nat
  inc : Nat
deriving DecidableEq, Repr

/-- Modelled from the spec: `rand1f` of yocto_sampling.h, which is not among
the sources ("producing uniform scalars in [0,1)", "advanced indefinitely"):
one step of a 64-bit linear congruential generator; the drawn number is built
from the top 24 bits of the new state. -/
def rand1f (rng : rng_state) : ℚ × rng_state :=
  let next := (rng.state * 6364136223846793005 + rng.inc) % 2 ^ 64
  (((next / 2 ^ 40 : Nat) : ℚ) / 2 ^ 24, { rng with state := next })

/-- A two-direction guiding distribution: `Sample` picks the pole for a first
coordinate below one half and the x axis otherwise. -/
def two_lobe_sample (u : pgl_point2f) : pgl_vec3f :=
  if u.x < 1 / 2 then ⟨0, 0, 1⟩ else ⟨1, 0, 0⟩

/-- Density of the two-direction distribution: 3 at the pole, 1 elsewhere. -/
def two_lobe_pdf (d : pgl_vec3f) : ℚ :=
  if d = ⟨0, 0, 1⟩ then 3 else 1

/-- The two-direction distribution as a guiding distribution: `SamplePDF`
draws a direction from the sample, stores it in the reference and returns its
density, as `samplePdf(const Point2 sample, Vector3 &dir)` declares. -/
def two_lobe : SurfaceSamplingDistribution where
  PDF := two_lobe_pdf
  SamplePDF := fun u _ => (two_lobe_pdf (two_lobe_sample u), two_lobe_sample u)

/-- The density a guiding distribution returns for a query. -/
def SurfaceSamplingDistribution.answer (d : SurfaceSamplingDistribution) :
    distribution_query → ℚ
  | distribution_query.SamplePDF sample direction => (d.SamplePDF sample direction).1
  | distribution_query.PDF direction => d.PDF direction

/-- `constexpr auto g_max_training_iterations = 128` (yocto_guiding.h:34). -/
def g_max_training_iterations : Nat := 128

/-- `constexpr auto g_min_training_iterations = g_max_training_iterations / 16`
(yocto_guiding.h:35). -/
def g_min_training_iterations : Nat := g_max_training_iterations / 16

/-- `constexpr auto g_max_training_samples = 1024` (yocto_guiding.h:36). -/
def g_max_training_samples : Nat := 1024

/-- Modelled from the spec: the Radiance Sample (the OpenPGL sample record is
not among the sources): "a single (position, incoming direction, incident
radiance, PDF) observation". -/
structure RadianceSample where
  position : pgl_vec3f
  direction : pgl_vec3f
  radiance : ℚ
  pdf : ℚ
deriving DecidableEq, Repr

/-- Modelled from the spec: the Sample Storage (`openpgl::cpp::SampleStorage` is
not among the sources): "an append-only buffer of Radiance Samples, bounded
by a flush threshold", holding surface and volume observations.  Both buffers
live in memory, so the two `size_t` sizes and their sum are below `2 ^ 64`. -/
structure SampleStorage where
  surface : List RadianceSample
  volume : List RadianceSample
  fits : surface.length + volume.length < 2 ^ 64

/-- `SampleStorage::GetSizeSurface()`: number of surface observations. -/
def SampleStorage.GetSizeSurface (s : SampleStorage) : Nat := s.surface.length

/-- `SampleStorage::GetSizeVolume()`: number of volume observations. -/
def SampleStorage.GetSizeVolume (s : SampleStorage) : Nat := s.volume.length

/-- `SampleStorage::Clear()`: "storage is cleared". -/
def SampleStorage.Clear (_s : SampleStorage) : SampleStorage :=
  ⟨[], [], by decide⟩

/-- Modelled from the spec: the Directional Field (`openpgl::cpp::Field` is not
among the sources), as far as the controller observes it: its iteration
counter and the samples it has consumed. -/
structure Field where
  iteration : Nat
  consumed : List RadianceSample
deriving DecidableEq, Repr

/-- Modelled from the spec: `Field::Update`, one training step: "the
Directional Field consumes all buffered samples ... and the field's iteration
counter increments". -/
def Field.Update (f : Field) (s : SampleStorage) : Field :=
  ⟨f.iteration + 1, f.consumed ++ s.surface ++ s.volume⟩

/-- `Field::GetIteration()`. -/
def Field.GetIteration (f : Field) : Nat := f.iteration

/-- The data members of `struct guiding_field` that its member functions read
or write (yocto_guiding.h:81-85); the two mutexes carry no data. -/
structure guiding_field where
  m_field : Field
  m_train : Bool
deriving DecidableEq, Repr

/-- The constructor `guiding_field(device)` (yocto_guiding.h:39-40): a new field
and `m_train = true`. -/
def guiding_field.construct : guiding_field :=
  ⟨⟨0, []⟩, true⟩

/-- `guiding_field::iterations()` (yocto_guiding.h:77). -/
def guiding_field.iterations (gf : guiding_field) : Nat := gf.m_field.GetIteration

/-- `guiding_field::should_train()` (yocto_guiding.h:79). -/
def guiding_field.should_train (gf : guiding_field) : Bool := gf.m_train

/-- What one call of `guiding_field::update` leaves behind: the returned
`bool`, the controller and the storage passed by reference. -/
structure update_result where
  returned : Bool
  self : guiding_field
  sample_storage : SampleStorage

/-- `guiding_field::update` (yocto_guiding.h:42-62), run by one thread (the
`lock_guard` is acquired on entry and released on return).  The sum of the two
sizes is `size_t` arithmetic. -/
def guiding_field.update (gf : guiding_field) (sample_storage : SampleStorage) :
    update_result :=
  if !gf.m_train then
    ⟨false, gf, sample_storage⟩
  else
    let num_samples :=
      (sample_storage.GetSizeSurface + sample_storage.GetSizeVolume) % 2 ^ 64
    if num_samples ≥ g_max_training_samples then
      let field1 := gf.m_field.Update sample_storage
      let storage1 := sample_storage.Clear
      let train1 := if field1.GetIteration ≥ g_max_training_iterations then false else gf.m_train
      ⟨true, ⟨field1, train1⟩, storage1⟩
    else
      ⟨false, gf, sample_storage⟩

/-- A finite sequence of `update` calls, one per storage of the list, each on
the controller the previous call left. -/
def guiding_field.run_updates (gf : guiding_field) : List SampleStorage → guiding_field
  | [] => gf
  | s :: rest => guiding_field.run_updates (gf.update s).self rest

/-- The relation between the two private members that the constructor
establishes and `update` keeps: the iteration count is at most the cap, and
below it while training is enabled. -/
def guiding_field.within_cap (gf : guiding_field) : Prop :=
  gf.iterations ≤ 128 ∧ (gf.m_train = true → gf.iterations < 128)

/-- A sample used to fill storages. -/
def unit_sample : RadianceSample := ⟨⟨0, 0, 0⟩, ⟨0, 0, 1⟩, 1, 1⟩

/-- A storage holding `n` surface observations and no volume observation, for
`n` up to the flush threshold. -/
def surface_storage (n : Nat) (h : n ≤ 1024) : SampleStorage :=
  ⟨List.replicate n unit_sample, [], by
    simp only [List.length_replicate, List.length_nil, Nat.add_zero]
    exact Nat.lt_of_le_of_lt h (by decide)⟩

/-- A storage at the flush threshold: 1024 surface observations. -/
def full_storage : SampleStorage := surface_storage 1024 (Nat.le_refl 1024)

/-- A storage below the flush threshold: 3 surface observations. -/
def small_storage : SampleStorage := surface_storage 3 (by decide)

/-! ## The render loop of ytrace -/

/-- The collaborators the render loop calls (ytrace.cpp:115 and 122), acting on
the state `σ` of the process (tracer state, image, files).  `trace_samples`
returns the value assigned to `done`; `save_tonemapped_image` returns whether
the checkpoint was written. -/
structure render_env (σ : Type) where
  trace_samples : σ → Bool × σ
  save_tonemapped_image : σ → Bool × σ

/-- How the loop of ytrace.cpp:112-126 is left, with the values `trace_samples`
returned so far, in call order, and the state reached.  `finished`: the test
`while (!done)` failed.  `fatal`: `log_fatal` ended the process inside the body
(ytrace.cpp:124); modelled from the spec, ygl.h not being among the sources:
"fatal, reported to the operator, process exits non-zero".  `out_of_fuel`: the
loop is still running when the fuel is spent. -/
inductive render_exit (σ : Type) where
  | finished (reports : List Bool) (state : σ)
  | fatal (reports : List Bool) (state : σ)
  | out_of_fuel (reports : List Bool) (state : σ)
deriving DecidableEq, Repr

/-- The loop `while (!done) { done = trace_samples(...); if (save_batch) { if
(!save_tonemapped_image(...)) log_fatal(...); } }` of ytrace.cpp:112-126, from
the current value of `done`. -/
def render_loop {σ : Type} (env : render_env σ) (save_batch : Bool) :
    Nat → Bool → List Bool → σ → render_exit σ
  | 0, done, reports, state =>
      if done then render_exit.finished reports state
      else render_exit.out_of_fuel reports state
  | fuel + 1, done, reports, state =>
      if done then render_exit.finished reports state
      else
        let traced := env.trace_samples state
        if save_batch then
          let saved := env.save_tonemapped_image traced.2
          if !saved.1 then render_exit.fatal (reports ++ [traced.1]) saved.2
          else render_loop env save_batch fuel traced.1 (reports ++ [traced.1]) saved.2
        else render_loop env save_batch fuel traced.1 (reports ++ [traced.1]) traced.2

/-- The render of ytrace.cpp:111-126: `auto done = false;` and the loop. -/
def render {σ : Type} (env : render_env σ) (save_batch : Bool) (fuel : Nat) (state : σ) :
    render_exit σ :=
  render_loop env save_batch fuel false [] state

/-- The state after one loop body that did not end in `log_fatal`. -/
def body_state {σ : Type} (env : render_env σ) (save_batch : Bool) (state : σ) : σ :=
  if save_batch then (env.save_tonemapped_image (env.trace_samples state).2).2
  else (env.trace_samples state).2

/-- The state after `k` loop bodies none of which ended in `log_fatal`. -/
def loop_state {σ : Type} (env : render_env σ) (save_batch : Bool) : Nat → σ → σ
  | 0, state => state
  | k + 1, state => loop_state env save_batch k (body_state env save_batch state)

/-- Modelled from the spec: `trace_samples` (ygl.h is not among the sources) on
the sample cursor alone, for a budget of 64 samples in batches of 16: "each
batch advances every pixel's accumulated estimate by `nbatch` samples", "the
pixel sample cursor reaches the configured total sample budget". -/
def trace_samples_64_16 (sample : Nat) : Bool × Nat :=
  (decide (64 ≤ sample + 16), sample + 16)

/-- An image sink on which every checkpoint is written. -/
def writable_env : render_env Nat where
  trace_samples := trace_samples_64_16
  save_tonemapped_image := fun s => (true, s)

/-- An image sink on which no checkpoint can be written. -/
def read_only_env : render_env Nat where
  trace_samples := trace_samples_64_16
  save_tonemapped_image := fun s => (false, s)

/-! ## Theorems: PDF mixing -/

/-- C1: with tag InUse or Tentative, `adjust_pdf_for_guiding` sends exactly one
query to the guiding distribution and returns `(1 - p) * pdf + p * g` with
`p = g_path_guiding_prob = 1/2`, where `g` is the density the distribution
returned for that query. -/
theorem adjust_pdf_mixture {ρ : Type} (rand1f : ρ → ℚ × ρ) (pdf : ℚ)
    (incoming : vec3f) (gd : SurfaceSamplingDistribution) (rng : ρ) (tag : guiding)
    (htag : tag = guiding.InUse ∨ tag = guiding.Tentative) :
    g_path_guiding_prob = 1 / 2 ∧
    ∃ q : distribution_query,
      (adjust_pdf_for_guiding rand1f pdf incoming gd rng tag).calls = [⟨q, gd.answer q⟩] ∧
      (adjust_pdf_for_guiding rand1f pdf incoming gd rng tag).pdf
        = (1 - g_path_guiding_prob) * pdf + g_path_guiding_prob * gd.answer q := by
  refine ⟨rfl, ?_⟩
  rcases htag with h | h
  · subst h
    refine ⟨distribution_query.SamplePDF
      ⟨(rand1f rng).1, (rand1f (rand1f rng).2).1⟩ ⟨incoming.x, incoming.y, incoming.z⟩, rfl, ?_⟩
    simp only [adjust_pdf_for_guiding, SurfaceSamplingDistribution.answer]
    ring
  · subst h
    refine ⟨distribution_query.PDF ⟨incoming.x, incoming.y, incoming.z⟩, rfl, ?_⟩
    simp only [adjust_pdf_for_guiding, SurfaceSamplingDistribution.answer]
    ring

/-- Witness for C1: the InUse mixture at the two-direction distribution. -/
theorem adjust_pdf_mixture_witness :
    (guiding.InUse = guiding.InUse ∨ guiding.InUse = guiding.Tentative) ∧
    g_path_guiding_prob = 1 / 2 ∧
    ∃ q : distribution_query,
      (adjust_pdf_for_guiding rand1f 1 ⟨1, 0, 0⟩ two_lobe ⟨0, 1⟩ guiding.InUse).calls
        = [⟨q, two_lobe.answer q⟩] ∧
      (adjust_pdf_for_guiding rand1f 1 ⟨1, 0, 0⟩ two_lobe ⟨0, 1⟩ guiding.InUse).pdf
        = (1 - g_path_guiding_prob) * 1 + g_path_guiding_prob * two_lobe.answer q :=
  ⟨Or.inl rfl,
    adjust_pdf_mixture rand1f 1 ⟨1, 0, 0⟩ two_lobe ⟨0, 1⟩ guiding.InUse (Or.inl rfl)⟩

/-- C2 (evaluation at the failing input): with tag InUse, incoming direction
`(1,0,0)`, material pdf 1 and the two-direction distribution, the code draws
two random numbers, asks `SamplePDF` (which answers 3, the density of the
freshly drawn pole direction) and returns 2, while the density `PDF(incoming)`
is 1 and the mixture at the incoming direction is 1; the random number state
has advanced. -/
theorem adjust_pdf_InUse_resamples :
    (adjust_pdf_for_guiding rand1f 1 ⟨1, 0, 0⟩ two_lobe ⟨0, 1⟩ guiding.InUse).pdf = 2 ∧
    (1 - g_path_guiding_prob) * 1 + g_path_guiding_prob * two_lobe.PDF ⟨1, 0, 0⟩ = 1 ∧
    (adjust_pdf_for_guiding rand1f 1 ⟨1, 0, 0⟩ two_lobe ⟨0, 1⟩ guiding.InUse).rng
      = ⟨6364136223846793006, 1⟩ ∧
    (adjust_pdf_for_guiding rand1f 1 ⟨1, 0, 0⟩ two_lobe ⟨0, 1⟩ guiding.InUse).rng
      ≠ (⟨0, 1⟩ : rng_state) ∧
    (adjust_pdf_for_guiding rand1f 1 ⟨1, 0, 0⟩ two_lobe ⟨0, 1⟩ guiding.InUse).calls
      = [⟨distribution_query.SamplePDF ⟨0, 5788148 / 16777216⟩ ⟨1, 0, 0⟩, 3⟩] ∧
    two_lobe_sample ⟨0, 5788148 / 16777216⟩ = ⟨0, 0, 1⟩ := by
  refine ⟨?_, ?_, ?_, ?_, ?_, ?_⟩
  · norm_num [adjust_pdf_for_guiding, rand1f, two_lobe, two_lobe_pdf, two_lobe_sample,
      g_path_guiding_prob]
  · norm_num [two_lobe, two_lobe_pdf, g_path_guiding_prob]
  · norm_num [adjust_pdf_for_guiding, rand1f]
  · norm_num [adjust_pdf_for_guiding, rand1f]
  · norm_num [adjust_pdf_for_guiding, rand1f, two_lobe, two_lobe_pdf, two_lobe_sample]
  · norm_num [two_lobe_sample]

/-- C3: with tag Unused, `adjust_pdf_for_guiding` returns the material pdf
unchanged, sends no query to the guiding distribution and leaves the random
number state as it was. -/
theorem adjust_pdf_unused {ρ : Type} (rand1f : ρ → ℚ × ρ) (pdf : ℚ)
    (incoming : vec3f) (gd : SurfaceSamplingDistribution) (rng : ρ) :
    (adjust_pdf_for_guiding rand1f pdf incoming gd rng guiding.Unused).pdf = pdf ∧
    (adjust_pdf_for_guiding rand1f pdf incoming gd rng guiding.Unused).calls = [] ∧
    (adjust_pdf_for_guiding rand1f pdf incoming gd rng guiding.Unused).rng = rng :=
  ⟨rfl, rfl, rfl⟩

/-- The `size_t` sum of the two sizes does not wrap. -/
theorem num_samples_eq (ss : SampleStorage) :
    (ss.GetSizeSurface + ss.GetSizeVolume) % 2 ^ 64
      = ss.GetSizeSurface + ss.GetSizeVolume :=
  Nat.mod_eq_of_lt ss.fits

/-- With training disabled `update` is the early return. -/
theorem update_eq_of_not_train (gf : guiding_field) (ss : SampleStorage)
    (h : gf.m_train = false) : gf.update ss = ⟨false, gf, ss⟩ := by
  simp [guiding_field.update, h]

/-- Below the threshold `update` is the final `return false`. -/
theorem update_eq_of_small (gf : guiding_field) (ss : SampleStorage)
    (h : ss.GetSizeSurface + ss.GetSizeVolume < 1024) :
    gf.update ss = ⟨false, gf, ss⟩ := by
  unfold guiding_field.update
  rw [num_samples_eq]
  by_cases ht : gf.m_train = true
  · have hn : ¬ (ss.GetSizeSurface + ss.GetSizeVolume ≥ g_max_training_samples) := by
      simp only [g_max_training_samples]; omega
    simp [ht, hn]
  · simp [ht]

/-- With training enabled and the threshold reached `update` trains once. -/
theorem update_eq_of_train (gf : guiding_field) (ss : SampleStorage)
    (ht : gf.m_train = true) (h : 1024 ≤ ss.GetSizeSurface + ss.GetSizeVolume) :
    gf.update ss
      = ⟨true, ⟨gf.m_field.Update ss, decide (gf.m_field.iteration + 1 < 128)⟩, ss.Clear⟩ := by
  unfold guiding_field.update
  rw [num_samples_eq]
  have hn : ss.GetSizeSurface + ss.GetSizeVolume ≥ g_max_training_samples := h
  simp only [ht, Bool.not_true, Bool.false_eq_true, if_false, hn, if_true]
  by_cases hi : gf.m_field.iteration + 1 < 128
  · have : ¬ ((gf.m_field.Update ss).GetIteration ≥ g_max_training_iterations) := by
      simp only [Field.GetIteration, Field.Update, g_max_training_iterations]; omega
    simp [this, hi]
  · have : (gf.m_field.Update ss).GetIteration ≥ g_max_training_iterations := by
      simp only [Field.GetIteration, Field.Update, g_max_training_iterations]; omega
    simp [this, hi]

/-- C4: `update` returns true exactly when training was enabled at the call
and the surface plus volume sample count is at least 1024; whenever it returns
false the iteration count, the storage contents and the training flag are
unchanged. -/
theorem update_returns_true_iff (gf : guiding_field) (ss : SampleStorage) :
    ((gf.update ss).returned = true ↔
      gf.should_train = true ∧ 1024 ≤ ss.GetSizeSurface + ss.GetSizeVolume) ∧
    ((gf.update ss).returned = false →
      (gf.update ss).self.iterations = gf.iterations ∧
      (gf.update ss).sample_storage = ss ∧
      (gf.update ss).self.should_train = gf.should_train) := by
  by_cases ht : gf.m_train = true
  · by_cases hn : 1024 ≤ ss.GetSizeSurface + ss.GetSizeVolume
    · rw [update_eq_of_train gf ss ht hn]
      simp [guiding_field.should_train, ht, hn]
    · rw [update_eq_of_small gf ss (by omega)]
      simp [guiding_field.should_train, hn]
  · rw [update_eq_of_not_train gf ss (by simpa using ht)]
    simp [guiding_field.should_train, ht]

/-- Witness for C4: a storage of 3 samples on a new controller is refused and
nothing changes. -/
theorem update_returns_true_iff_witness :
    (guiding_field.construct.update small_storage).returned = false ∧
    (guiding_field.construct.update small_storage).self.iterations
      = guiding_field.construct.iterations ∧
    (guiding_field.construct.update small_storage).sample_storage = small_storage ∧
    (guiding_field.construct.update small_storage).self.should_train
      = guiding_field.construct.should_train :=
  ⟨by rw [update_eq_of_small _ _ (by decide)],
    (update_returns_true_iff guiding_field.construct small_storage).2
      (by rw [update_eq_of_small _ _ (by decide)])⟩

/-- C5: with training enabled and at least 1024 buffered samples, `update`
performs exactly one `Field::Update` on that storage: the storage is empty
afterwards, the iteration count is one more than before, and the call returns
true. -/
theorem update_trains_once (gf : guiding_field) (ss : SampleStorage)
    (ht : gf.should_train = true)
    (hn : 1024 ≤ ss.GetSizeSurface + ss.GetSizeVolume) :
    (gf.update ss).returned = true ∧
    (gf.update ss).self.m_field = gf.m_field.Update ss ∧
    (gf.update ss).self.iterations = gf.iterations + 1 ∧
    (gf.update ss).sample_storage.surface = [] ∧
    (gf.update ss).sample_storage.volume = [] ∧
    (gf.update ss).sample_storage.GetSizeSurface
      + (gf.update ss).sample_storage.GetSizeVolume = 0 := by
  rw [update_eq_of_train gf ss ht hn]
  exact ⟨rfl, rfl, rfl, rfl, rfl, rfl⟩

/-- Witness for C5: a new controller and a storage of 1024 samples. -/
theorem update_trains_once_witness :
    guiding_field.construct.should_train = true ∧
    1024 ≤ full_storage.GetSizeSurface + full_storage.GetSizeVolume ∧
    (guiding_field.construct.update full_storage).returned = true ∧
    (guiding_field.construct.update full_storage).self.iterations = 1 ∧
    (guiding_field.construct.update full_storage).sample_storage.surface = [] ∧
    (guiding_field.construct.update full_storage).sample_storage.volume = [] := by
  have hn : 1024 ≤ full_storage.GetSizeSurface + full_storage.GetSizeVolume := by
    simp only [full_storage, surface_storage, SampleStorage.GetSizeSurface,
      SampleStorage.GetSizeVolume, List.length_replicate, List.length_nil, Nat.add_zero,
      Nat.le_refl]
  have h := update_trains_once guiding_field.construct full_storage rfl hn
  exact ⟨rfl, hn, h.1, h.2.2.1, h.2.2.2.1, h.2.2.2.2.1⟩

/-- One `update` call keeps the iteration count within the cap. -/
theorem within_cap_update (gf : guiding_field) (ss : SampleStorage)
    (h : gf.within_cap) : (gf.update ss).self.within_cap := by
  by_cases ht : gf.m_train = true
  · by_cases hn : 1024 ≤ ss.GetSizeSurface + ss.GetSizeVolume
    · rw [update_eq_of_train gf ss ht hn]
      have hlt := h.2 ht
      simp only [guiding_field.within_cap, guiding_field.iterations, Field.GetIteration,
        Field.Update, decide_eq_true_eq] at hlt ⊢
      exact ⟨by omega, fun h1 => h1⟩
    · rw [update_eq_of_small gf ss (by omega)]
      exact h
  · rw [update_eq_of_not_train gf ss (by simpa using ht)]
    exact h

/-- Every finite sequence of `update` calls keeps the iteration count within
the cap. -/
theorem within_cap_run_updates (calls : List SampleStorage) :
    ∀ gf : guiding_field, gf.within_cap → (gf.run_updates calls).within_cap := by
  induction calls with
  | nil => intro gf h; exact h
  | cons s rest ih =>
      intro gf h
      exact ih (gf.update s).self (within_cap_update gf s h)

/-- A controller with iteration count 0 is within the cap. -/
theorem within_cap_of_new (gf : guiding_field) (h0 : gf.iterations = 0) :
    gf.within_cap := by
  refine ⟨?_, fun _ => ?_⟩ <;> rw [h0] <;> decide

/-- Once training is disabled no sequence of `update` calls changes the
controller. -/
theorem run_updates_of_not_train (calls : List SampleStorage) :
    ∀ gf : guiding_field, gf.m_train = false → gf.run_updates calls = gf := by
  induction calls with
  | nil => intro gf _; rfl
  | cons s rest ih =>
      intro gf h
      show guiding_field.run_updates (gf.update s).self rest = gf
      rw [update_eq_of_not_train gf s h]
      exact ih gf h

/-- While the cap is out of reach, `k` full storages train `k` times. -/
theorem run_updates_full (k : Nat) :
    ∀ gf : guiding_field, gf.m_train = true → gf.m_field.iteration + k < 128 →
      (gf.run_updates (List.replicate k full_storage)).m_train = true ∧
      (gf.run_updates (List.replicate k full_storage)).m_field.iteration
        = gf.m_field.iteration + k := by
  induction k with
  | zero => intro gf ht _; exact ⟨ht, rfl⟩
  | succ k ih =>
      intro gf ht hlt
      have hn : 1024 ≤ full_storage.GetSizeSurface + full_storage.GetSizeVolume := by
        simp only [full_storage, surface_storage, SampleStorage.GetSizeSurface,
          SampleStorage.GetSizeVolume, List.length_replicate, List.length_nil, Nat.add_zero,
          Nat.le_refl]
      show (guiding_field.run_updates (gf.update full_storage).self
          (List.replicate k full_storage)).m_train = true ∧
        (guiding_field.run_updates (gf.update full_storage).self
          (List.replicate k full_storage)).m_field.iteration = gf.m_field.iteration + (k + 1)
      rw [update_eq_of_train gf full_storage ht hn]
      have h1 : gf.m_field.iteration + 1 < 128 := by omega
      have := ih ⟨gf.m_field.Update full_storage, decide (gf.m_field.iteration + 1 < 128)⟩
        (by simp [h1]) (by simp only [Field.Update]; omega)
      refine ⟨this.1, ?_⟩
      rw [this.2]
      simp only [Field.Update]
      omega

/-- C6: on a controller reached from a new one by any sequence of `update`
calls, once an `update` call leaves the iteration count at or above 128,
`should_train()` is false after that call and after every later sequence of
`update` calls, the controller never changes again, and each later `update`
call returns false and changes neither the iteration count nor the storage,
whatever the storage holds. -/
theorem training_stops_at_cap (gf0 : guiding_field) (h0 : gf0.iterations = 0)
    (pre : List SampleStorage) (ss : SampleStorage)
    (hcap : 128 ≤ ((gf0.run_updates pre).update ss).self.iterations)
    (later : List SampleStorage) :
    (((gf0.run_updates pre).update ss).self.run_updates later).should_train = false ∧
    ((gf0.run_updates pre).update ss).self.run_updates later
      = ((gf0.run_updates pre).update ss).self ∧
    ∀ ss2 : SampleStorage,
      ((((gf0.run_updates pre).update ss).self.run_updates later).update ss2).returned = false ∧
      ((((gf0.run_updates pre).update ss).self.run_updates later).update ss2).self.iterations
        = (((gf0.run_updates pre).update ss).self.run_updates later).iterations ∧
      ((((gf0.run_updates pre).update ss).self.run_updates later).update ss2).self
        = ((gf0.run_updates pre).update ss).self.run_updates later ∧
      ((((gf0.run_updates pre).update ss).self.run_updates later).update ss2).sample_storage
        = ss2 := by
  have hinv : ((gf0.run_updates pre).update ss).self.within_cap :=
    within_cap_update _ ss (within_cap_run_updates pre gf0 (within_cap_of_new gf0 h0))
  have hoff : ((gf0.run_updates pre).update ss).self.m_train = false := by
    cases htr : ((gf0.run_updates pre).update ss).self.m_train with
    | false => rfl
    | true => have := hinv.2 htr; omega
  have hfix := run_updates_of_not_train later _ hoff
  rw [hfix]
  refine ⟨hoff, rfl, fun ss2 => ?_⟩
  rw [update_eq_of_not_train _ ss2 hoff]
  exact ⟨rfl, rfl, rfl, rfl⟩

/-- Witness for C6: 127 full storages and one more bring a new controller to
iteration 128; afterwards training is off and a full storage is refused. -/
theorem training_stops_at_cap_witness :
    guiding_field.construct.iterations = 0 ∧
    128 ≤ ((guiding_field.construct.run_updates
        (List.replicate 127 full_storage)).update full_storage).self.iterations ∧
    (((guiding_field.construct.run_updates
        (List.replicate 127 full_storage)).update full_storage).self.run_updates
        [small_storage]).should_train = false ∧
    (((((guiding_field.construct.run_updates
        (List.replicate 127 full_storage)).update full_storage).self.run_updates
        [small_storage]).update full_storage).returned = false) := by
  have hn : 1024 ≤ full_storage.GetSizeSurface + full_storage.GetSizeVolume := by
    simp only [full_storage, surface_storage, SampleStorage.GetSizeSurface,
      SampleStorage.GetSizeVolume, List.length_replicate, List.length_nil, Nat.add_zero,
      Nat.le_refl]
  have hrun := run_updates_full 127 guiding_field.construct rfl (by decide)
  have hcap : 128 ≤ ((guiding_field.construct.run_updates
      (List.replicate 127 full_storage)).update full_storage).self.iterations := by
    rw [update_eq_of_train _ full_storage hrun.1 hn]
    simp only [guiding_field.iterations, Field.GetIteration, Field.Update, hrun.2]
    decide
  have h := training_stops_at_cap guiding_field.construct rfl
    (List.replicate 127 full_storage) full_storage hcap [small_storage]
  exact ⟨rfl, hcap, h.1, (h.2.2 full_storage).1⟩

/-- C7: from a new controller (iteration count 0, training enabled), after
every finite sequence of `update` calls with arbitrary storages the iteration
count is at most 128. -/
theorem iterations_le_cap (gf0 : guiding_field) (h0 : gf0.iterations = 0)
    (calls : List SampleStorage) :
    (gf0.run_updates calls).iterations ≤ 128 ∧
    ((gf0.run_updates calls).should_train = true → (gf0.run_updates calls).iterations < 128) :=
  within_cap_run_updates calls gf0 (within_cap_of_new gf0 h0)

/-- Witness for C7: three calls on a new controller. -/
theorem iterations_le_cap_witness :
    guiding_field.construct.iterations = 0 ∧
    guiding_field.construct.should_train = true ∧
    (guiding_field.construct.run_updates
      [full_storage, small_storage, full_storage]).iterations ≤ 128 :=
  ⟨rfl, rfl,
    (iterations_le_cap guiding_field.construct rfl
      [full_storage, small_storage, full_storage]).1⟩

/-! ## Theorems: the render loop -/

/-- Once `done` is true the loop test fails, whatever fuel is left. -/
theorem render_loop_done {σ : Type} (env : render_env σ) (save_batch : Bool) (fuel : Nat)
    (reports : List Bool) (state : σ) :
    render_loop env save_batch fuel true reports state = render_exit.finished reports state := by
  cases fuel <;> rfl

/-- Enough fuel leaves the loop: if the call number `k + 1` of `trace_samples`
is the first to report true and every checkpoint up to it is written, the loop
is left through its test right after that body. -/
theorem render_loop_finishes {σ : Type} (env : render_env σ) (save_batch : Bool) (k : Nat) :
    ∀ (fuel : Nat) (reports : List Bool) (state : σ), k < fuel →
      (∀ i, i < k → (env.trace_samples (loop_state env save_batch i state)).1 = false) →
      (env.trace_samples (loop_state env save_batch k state)).1 = true →
      (save_batch = true → ∀ i, i ≤ k →
        (env.save_tonemapped_image
          (env.trace_samples (loop_state env save_batch i state)).2).1 = true) →
      render_loop env save_batch fuel false reports state
        = render_exit.finished (reports ++ (List.replicate k false ++ [true]))
            (loop_state env save_batch (k + 1) state) := by
  induction k with
  | zero =>
      intro fuel reports state hfuel _ hlast hsave
      obtain ⟨n, rfl⟩ : ∃ n, fuel = n + 1 := ⟨fuel - 1, by omega⟩
      have hl : (env.trace_samples state).1 = true := hlast
      cases save_batch
      · simp [render_loop, hl, render_loop_done, loop_state, body_state]
      · have hs : (env.save_tonemapped_image (env.trace_samples state).2).1 = true :=
          hsave rfl 0 (Nat.le_refl 0)
        simp [render_loop, hl, hs, render_loop_done, loop_state, body_state]
  | succ k ih =>
      intro fuel reports state hfuel hfalse hlast hsave
      obtain ⟨n, rfl⟩ : ∃ n, fuel = n + 1 := ⟨fuel - 1, by omega⟩
      have h0 : (env.trace_samples state).1 = false := hfalse 0 (Nat.succ_pos k)
      have hrec := ih n (reports ++ [false]) (body_state env save_batch state) (by omega)
        (fun i hi => hfalse (i + 1) (by omega)) hlast
        (fun hsb i hi => hsave hsb (i + 1) (by omega))
      have hlist : reports ++ (List.replicate (k + 1) false ++ [true])
          = reports ++ [false] ++ (List.replicate k false ++ [true]) := by
        simp [List.replicate_succ]
      rw [hlist, show loop_state env save_batch (k + 1 + 1) state
        = loop_state env save_batch (k + 1) (body_state env save_batch state) from rfl, ← hrec]
      cases save_batch
      · simp [render_loop, h0, body_state]
      · have hs : (env.save_tonemapped_image (env.trace_samples state).2).1 = true :=
          hsave rfl 0 (Nat.zero_le _)
        simp [render_loop, h0, hs, body_state]

/-- A checkpoint that cannot be written ends the render: with checkpointing
enabled, if the first `k` bodies reported false and wrote their checkpoints
and the checkpoint of body `k + 1` fails, the loop ends in `log_fatal` there,
whatever `trace_samples` reported in that body. -/
theorem render_loop_fatal {σ : Type} (env : render_env σ) (k : Nat) :
    ∀ (fuel : Nat) (reports : List Bool) (state : σ), k < fuel →
      (∀ i, i < k → (env.trace_samples (loop_state env true i state)).1 = false) →
      (∀ i, i < k →
        (env.save_tonemapped_image (env.trace_samples (loop_state env true i state)).2).1
          = true) →
      (env.save_tonemapped_image (env.trace_samples (loop_state env true k state)).2).1
        = false →
      render_loop env true fuel false reports state
        = render_exit.fatal
            (reports ++ (List.replicate k false
              ++ [(env.trace_samples (loop_state env true k state)).1]))
            (env.save_tonemapped_image
              (env.trace_samples (loop_state env true k state)).2).2 := by
  induction k with
  | zero =>
      intro fuel reports state hfuel _ _ hfail
      obtain ⟨n, rfl⟩ : ∃ n, fuel = n + 1 := ⟨fuel - 1, by omega⟩
      have hf : (env.save_tonemapped_image (env.trace_samples state).2).1 = false := hfail
      simp [render_loop, hf, loop_state]
  | succ k ih =>
      intro fuel reports state hfuel hfalse hsave hfail
      obtain ⟨n, rfl⟩ : ∃ n, fuel = n + 1 := ⟨fuel - 1, by omega⟩
      have h0 : (env.trace_samples state).1 = false := hfalse 0 (Nat.succ_pos k)
      have hs : (env.save_tonemapped_image (env.trace_samples state).2).1 = true :=
        hsave 0 (Nat.succ_pos k)
      have hrec := ih n (reports ++ [false]) (body_state env true state) (by omega)
        (fun i hi => hfalse (i + 1) (by omega)) (fun i hi => hsave (i + 1) (by omega)) hfail
      have hlist : ∀ r : Bool, reports ++ (List.replicate (k + 1) false ++ [r])
          = reports ++ [false] ++ (List.replicate k false ++ [r]) := by
        intro r; simp [List.replicate_succ]
      rw [hlist, show loop_state env true (k + 1) state
        = loop_state env true k (body_state env true state) from rfl, ← hrec]
      simp [render_loop, h0, hs, body_state]

/-- While every body reports false and writes its checkpoint the loop keeps
running. -/
theorem render_loop_runs {σ : Type} (env : render_env σ) (save_batch : Bool) (fuel : Nat) :
    ∀ (reports : List Bool) (state : σ),
      (∀ i, i < fuel → (env.trace_samples (loop_state env save_batch i state)).1 = false) →
      (save_batch = true → ∀ i, i < fuel →
        (env.save_tonemapped_image
          (env.trace_samples (loop_state env save_batch i state)).2).1 = true) →
      render_loop env save_batch fuel false reports state
        = render_exit.out_of_fuel (reports ++ List.replicate fuel false)
            (loop_state env save_batch fuel state) := by
  induction fuel with
  | zero => intro reports state _ _; simp [render_loop, loop_state]
  | succ n ih =>
      intro reports state hfalse hsave
      have h0 : (env.trace_samples state).1 = false := hfalse 0 (Nat.succ_pos n)
      have hrec := ih (reports ++ [false]) (body_state env save_batch state)
        (fun i hi => hfalse (i + 1) (by omega))
        (fun hsb i hi => hsave hsb (i + 1) (by omega))
      have hlist : reports ++ List.replicate (n + 1) false
          = reports ++ [false] ++ List.replicate n false := by
        simp [List.replicate_succ]
      rw [hlist, show loop_state env save_batch (n + 1) state
        = loop_state env save_batch n (body_state env save_batch state) from rfl, ← hrec]
      cases save_batch
      · simp [render_loop, h0, body_state]
      · have hs : (env.save_tonemapped_image (env.trace_samples state).2).1 = true :=
          hsave rfl 0 (Nat.succ_pos n)
        simp [render_loop, h0, hs, body_state]

/-- Every run of the render is one of three: left through the loop test after
the first body that reports true, ended by `log_fatal` at the first checkpoint
that cannot be written, or still running. -/
theorem render_trichotomy {σ : Type} (env : render_env σ) (save_batch : Bool) (fuel : Nat)
    (state : σ) :
    (∃ k, k < fuel ∧
      (∀ i, i < k → (env.trace_samples (loop_state env save_batch i state)).1 = false) ∧
      (env.trace_samples (loop_state env save_batch k state)).1 = true ∧
      render env save_batch fuel state
        = render_exit.finished (List.replicate k false ++ [true])
            (loop_state env save_batch (k + 1) state)) ∨
    (save_batch = true ∧ ∃ k, k < fuel ∧
      (∀ i, i < k → (env.trace_samples (loop_state env save_batch i state)).1 = false ∧
        (env.save_tonemapped_image
          (env.trace_samples (loop_state env save_batch i state)).2).1 = true) ∧
      (env.save_tonemapped_image
        (env.trace_samples (loop_state env save_batch k state)).2).1 = false ∧
      render env save_batch fuel state
        = render_exit.fatal
            (List.replicate k false
              ++ [(env.trace_samples (loop_state env save_batch k state)).1])
            (env.save_tonemapped_image
              (env.trace_samples (loop_state env save_batch k state)).2).2) ∨
    render env save_batch fuel state
      = render_exit.out_of_fuel (List.replicate fuel false)
          (loop_state env save_batch fuel state) := by
  classical
  by_cases h : ∃ k, k < fuel ∧
      ((env.trace_samples (loop_state env save_batch k state)).1 = true ∨
        (save_batch = true ∧
          (env.save_tonemapped_image
            (env.trace_samples (loop_state env save_batch k state)).2).1 = false))
  · have hk := Nat.find_spec h
    have hmin : ∀ i, i < Nat.find h →
        (env.trace_samples (loop_state env save_batch i state)).1 = false ∧
        (save_batch = true →
          (env.save_tonemapped_image
            (env.trace_samples (loop_state env save_batch i state)).2).1 = true) := by
      intro i hi
      have hnot := Nat.find_min h hi
      have hif : i < fuel := Nat.lt_trans hi hk.1
      constructor
      · cases hr : (env.trace_samples (loop_state env save_batch i state)).1 with
        | false => rfl
        | true => exact absurd ⟨hif, Or.inl hr⟩ hnot
      · intro hsb
        cases hs : (env.save_tonemapped_image
            (env.trace_samples (loop_state env save_batch i state)).2).1 with
        | true => rfl
        | false => exact absurd ⟨hif, Or.inr ⟨hsb, hs⟩⟩ hnot
    by_cases hf : save_batch = true ∧
        (env.save_tonemapped_image
          (env.trace_samples (loop_state env save_batch (Nat.find h) state)).2).1 = false
    · obtain ⟨hsb, hfail⟩ := hf
      subst hsb
      refine Or.inr (Or.inl ⟨rfl, Nat.find h, hk.1,
        fun i hi => ⟨(hmin i hi).1, (hmin i hi).2 rfl⟩, hfail, ?_⟩)
      have := render_loop_fatal env (Nat.find h) fuel [] state hk.1
        (fun i hi => (hmin i hi).1) (fun i hi => (hmin i hi).2 rfl) hfail
      simpa [render] using this
    · have hlast : (env.trace_samples (loop_state env save_batch (Nat.find h) state)).1
          = true := by
        rcases hk.2 with h1 | h2
        · exact h1
        · exact absurd h2 hf
      refine Or.inl ⟨Nat.find h, hk.1, fun i hi => (hmin i hi).1, hlast, ?_⟩
      have := render_loop_finishes env save_batch (Nat.find h) fuel [] state hk.1
        (fun i hi => (hmin i hi).1) hlast
        (fun hsb i hi => by
          rcases Nat.lt_or_eq_of_le hi with hlt | heq
          · exact (hmin i hlt).2 hsb
          · subst heq
            cases hs : (env.save_tonemapped_image
                (env.trace_samples (loop_state env save_batch (Nat.find h) state)).2).1 with
            | true => rfl
            | false => exact absurd ⟨hsb, hs⟩ hf)
      simpa [render] using this
  · refine Or.inr (Or.inr ?_)
    have hall : ∀ i, i < fuel →
        (env.trace_samples (loop_state env save_batch i state)).1 = false ∧
        (save_batch = true →
          (env.save_tonemapped_image
            (env.trace_samples (loop_state env save_batch i state)).2).1 = true) := by
      intro i hi
      constructor
      · cases hr : (env.trace_samples (loop_state env save_batch i state)).1 with
        | false => rfl
        | true => exact absurd ⟨i, hi, Or.inl hr⟩ h
      · intro hsb
        cases hs : (env.save_tonemapped_image
            (env.trace_samples (loop_state env save_batch i state)).2).1 with
        | true => rfl
        | false => exact absurd ⟨i, hi, Or.inr ⟨hsb, hs⟩⟩ h
    have := render_loop_runs env save_batch fuel [] state (fun i hi => (hall i hi).1)
      (fun hsb i hi => (hall i hi).2 hsb)
    simpa [render] using this

/-- C9 (counterexample): with progressive checkpointing enabled and an image
sink that cannot be written, the render of a 64-sample budget ends inside the
first loop body through `log_fatal`, although `trace_samples` reported false
(the cursor is at 16 of 64); started at cursor 48 it ends through `log_fatal`
as well, in the body whose `trace_samples` reported true. -/
theorem render_ends_on_failed_checkpoint :
    render read_only_env true 5 0 = render_exit.fatal [false] 16 ∧
    read_only_env.trace_samples 0 = (false, 16) ∧
    read_only_env.save_tonemapped_image 16 = (false, 16) ∧
    render read_only_env true 5 48 = render_exit.fatal [true] 64 := by
  refine ⟨?_, ?_, ?_, ?_⟩ <;> decide

/-- C9 (amended): the loop test is passed only after a call of `trace_samples`
that reported true, every earlier call having reported false, and the state
left is the one after that body; with progressive checkpointing disabled
nothing else ends the render; with it enabled the only other way out is
`log_fatal` in the first body whose checkpoint cannot be written.  Conversely,
any fuel above `k` leaves the loop through its test when body `k + 1` is the
first to report true and the checkpoints up to it are written, and ends in
`log_fatal` when the checkpoint of body `k + 1` is the first that cannot be
written, whatever `trace_samples` reported in that body. -/
theorem render_leaves {σ : Type} (env : render_env σ) (save_batch : Bool) (fuel : Nat)
    (state : σ) :
    (∀ rs s1, render env save_batch fuel state = render_exit.finished rs s1 →
      ∃ k, k < fuel ∧ rs = List.replicate k false ++ [true] ∧
        s1 = loop_state env save_batch (k + 1) state ∧
        (env.trace_samples (loop_state env save_batch k state)).1 = true ∧
        ∀ i, i < k → (env.trace_samples (loop_state env save_batch i state)).1 = false) ∧
    (∀ rs s1, render env save_batch fuel state = render_exit.fatal rs s1 →
      save_batch = true ∧
      ∃ k, k < fuel ∧
        rs = List.replicate k false
          ++ [(env.trace_samples (loop_state env save_batch k state)).1] ∧
        env.save_tonemapped_image (env.trace_samples (loop_state env save_batch k state)).2
          = (false, s1) ∧
        ∀ i, i < k → (env.trace_samples (loop_state env save_batch i state)).1 = false ∧
          (env.save_tonemapped_image
            (env.trace_samples (loop_state env save_batch i state)).2).1 = true) ∧
    (save_batch = false →
      ∀ rs s1, render env save_batch fuel state ≠ render_exit.fatal rs s1) ∧
    (∀ k, k < fuel →
      (∀ i, i < k → (env.trace_samples (loop_state env save_batch i state)).1 = false) →
      (env.trace_samples (loop_state env save_batch k state)).1 = true →
      (save_batch = true → ∀ i, i ≤ k →
        (env.save_tonemapped_image
          (env.trace_samples (loop_state env save_batch i state)).2).1 = true) →
      render env save_batch fuel state
        = render_exit.finished (List.replicate k false ++ [true])
            (loop_state env save_batch (k + 1) state)) ∧
    (save_batch = true → ∀ k, k < fuel →
      (∀ i, i < k → (env.trace_samples (loop_state env save_batch i state)).1 = false ∧
        (env.save_tonemapped_image
          (env.trace_samples (loop_state env save_batch i state)).2).1 = true) →
      (env.save_tonemapped_image
        (env.trace_samples (loop_state env save_batch k state)).2).1 = false →
      render env save_batch fuel state
        = render_exit.fatal
            (List.replicate k false
              ++ [(env.trace_samples (loop_state env save_batch k state)).1])
            (env.save_tonemapped_image
              (env.trace_samples (loop_state env save_batch k state)).2).2) := by
  have hfatal : ∀ rs s1, render env save_batch fuel state = render_exit.fatal rs s1 →
      save_batch = true ∧
      ∃ k, k < fuel ∧
        rs = List.replicate k false
          ++ [(env.trace_samples (loop_state env save_batch k state)).1] ∧
        env.save_tonemapped_image (env.trace_samples (loop_state env save_batch k state)).2
          = (false, s1) ∧
        ∀ i, i < k → (env.trace_samples (loop_state env save_batch i state)).1 = false ∧
          (env.save_tonemapped_image
            (env.trace_samples (loop_state env save_batch i state)).2).1 = true := by
    intro rs s1 hrs
    rcases render_trichotomy env save_batch fuel state with
      ⟨k, _, _, _, heq⟩ | ⟨hsb, k, hk, hpre, hfail, heq⟩ | heq
    · rw [heq] at hrs; cases hrs
    · rw [heq] at hrs
      injection hrs with h1 h2
      refine ⟨hsb, k, hk, h1.symm, ?_, hpre⟩
      rw [← h2, ← hfail]
    · rw [heq] at hrs; cases hrs
  refine ⟨fun rs s1 hrs => ?_, hfatal, fun hsb rs s1 hrs => ?_,
    fun k hk hfalse hlast hsave => ?_, fun hsb k hk hpre hfail => ?_⟩
  · rcases render_trichotomy env save_batch fuel state with
      ⟨k, hk, hpre, hlast, heq⟩ | ⟨_, k, _, _, _, heq⟩ | heq
    · rw [heq] at hrs
      injection hrs with h1 h2
      exact ⟨k, hk, h1.symm, h2.symm, hlast, hpre⟩
    · rw [heq] at hrs; cases hrs
    · rw [heq] at hrs; cases hrs
  · have := (hfatal rs s1 hrs).1
    rw [hsb] at this
    cases this
  · have := render_loop_finishes env save_batch k fuel [] state hk hfalse hlast hsave
    simpa [render] using this
  · subst hsb
    have := render_loop_fatal env k fuel [] state hk (fun i hi => (hpre i hi).1)
      (fun i hi => (hpre i hi).2) hfail
    simpa [render] using this

/-- Witness for C9 (amended): a 64-sample budget in batches of 16 with every
checkpoint written leaves the loop after the fourth call of `trace_samples`,
the first to report true. -/
theorem render_leaves_witness :
    render writable_env true 5 0 = render_exit.finished [false, false, false, true] 64 ∧
    ∃ k, k < 5 ∧ [false, false, false, true] = List.replicate k false ++ [true] ∧
      64 = loop_state writable_env true (k + 1) 0 ∧
      (writable_env.trace_samples (loop_state writable_env true k 0)).1 = true ∧
      ∀ i, i < k → (writable_env.trace_samples (loop_state writable_env true i 0)).1 = false :=
  ⟨by decide,
    (render_leaves writable_env true 5 0).1 [false, false, false, true] 64 (by decide)⟩

end yocto
